import Mathlib

/-!
Verification of the partitioned archive store and the checkpointed chunk
scheduler of the indian-supreme-court-judgments repository.

The development shallow-embeds the relevant code of `archive_manager.py`,
`sync_s3_fill.py` and `download.py`:

* machine integers become `Nat` (sizes never overflow in range of interest);
* wall-clock timestamps (`utc_now_iso`) become explicit `String` parameters;
* the object store (boto3 S3 client) becomes explicit parameters/result types:
  the outcome of a `get_object` on the index, a flag for whether the canonical
  container exists remotely, and an action trace of performed uploads;
* a ZIP container on disk is modelled by the list of (filename, content length)
  entries written to it; its on-disk `stat().st_size` is modelled as the sum of
  the stored content lengths (compression and container headers are abstracted
  away, matching the spec's size accounting);
* Python dataclasses become structures with the same field names.

All state concerns a single archive key `(year, archive_type)`: every container
of `S3ArchiveManager` (`archives`, `indexes`, `current_part_files`,
`current_part_size`, `pending_parts`, `parts_created_count`,
`modified_archives`, `uploaded_archives`) is keyed by that pair and entries for
distinct keys never interact, so the per-key projection is faithful.
-/

namespace SCArchive

/-! ## `format_size` (archive_manager.py lines 32-48)

The Python function divides a float by 1024 up to four times and prints two
decimals.  The model selects the same unit index with exact natural-number
comparisons and renders the two decimals by flooring hundredths (the float
rounding of the final printed digit is abstracted; no theorem depends on the
digits themselves). -/

def sizeUnits : List String := ["B", "KB", "MB", "GB", "TB"]

/-- The `while size >= 1024.0 and unit_index < len(size_units) - 1` loop;
the loop body runs at most four times, so fuel 4 is exact. -/
def formatSizeLoop : Nat → Nat → Nat → Nat × Nat
  | 0, size, unitIndex => (size, unitIndex)
  | fuel + 1, size, unitIndex =>
    if 1024 ≤ size ∧ unitIndex < sizeUnits.length - 1 then
      formatSizeLoop fuel (size / 1024) (unitIndex + 1)
    else (size, unitIndex)

def formatSize (sizeBytes : Nat) : String :=
  if sizeBytes = 0 then "0 B"
  else
    let r := formatSizeLoop 4 sizeBytes 0
    let unitIndex := r.2
    if unitIndex = 0 then
      toString sizeBytes ++ " " ++ sizeUnits.getD 0 ""
    else
      let hundredths := sizeBytes * 100 / 1024 ^ unitIndex
      let whole := hundredths / 100
      let frac := hundredths % 100
      let fracStr := if frac < 10 then "0" ++ toString frac else toString frac
      toString whole ++ "." ++ fracStr ++ " " ++ sizeUnits.getD unitIndex ""

/-! ## `IndexPart` and `IndexFileV2` (archive_manager.py lines 65-171) -/

structure IndexPart where
  name : String
  files : List String
  file_count : Nat
  size : Nat
  size_human : String
  created_at : String
deriving Repr, DecidableEq

structure IndexFileV2 where
  year : Nat
  archive_type : String
  file_count : Nat
  total_size : Nat
  total_size_human : String
  created_at : String
  updated_at : String
  parts : List IndexPart
  /-- Legacy field for backward compatibility. -/
  files : List String
deriving Repr, DecidableEq

/-- The dataclass defaults of `IndexFileV2()`. -/
def IndexFileV2.empty : IndexFileV2 :=
  { year := 0, archive_type := "", file_count := 0, total_size := 0,
    total_size_human := "0 B", created_at := "", updated_at := "",
    parts := [], files := [] }

instance : Inhabited IndexFileV2 := ⟨IndexFileV2.empty⟩

/-- Python `get_all_files` (lines 158-163).  The Python function returns
`list(set(...))`; it is consumed only through membership tests (`in`), so the
model keeps the concatenation, which has the same membership. -/
def IndexFileV2.get_all_files (idx : IndexFileV2) : List String :=
  idx.files ++ (idx.parts.map IndexPart.files).flatten

/-- Python `add_part` (lines 165-171); `now` stands for `utc_now_iso()`. -/
def IndexFileV2.add_part (idx : IndexFileV2) (part : IndexPart) (now : String) :
    IndexFileV2 :=
  { idx with
    parts := idx.parts ++ [part],
    file_count := idx.file_count + part.file_count,
    total_size := idx.total_size + part.size,
    total_size_human := formatSize (idx.total_size + part.size),
    updated_at := now }

/-- The fresh empty index built on a "not found" in `_load_index_from_s3`
(lines 279-291). -/
def emptyIndex (year : Nat) (archiveType : String) (now : String) : IndexFileV2 :=
  { year := year, archive_type := archiveType, file_count := 0, total_size := 0,
    total_size_human := "0 B", created_at := now, updated_at := now,
    parts := [], files := [] }

/-! ## `_load_index_from_s3` (archive_manager.py lines 262-306) -/

/-- Outcome of `s3.get_object` on the index key, plus the subsequent body read
and JSON parse.  `clientError msg` is a `self.s3.exceptions.ClientError` whose
string rendering is `msg`; `otherError` is any exception that is not a
`ClientError` (network failure while reading the body, malformed JSON, ...). -/
inductive S3GetIndexResult where
  | found (data : IndexFileV2)
  | clientError (msg : String)
  | otherError
deriving Repr, DecidableEq

/-- Whether `needle` occurs at the start of `hay` (on character lists). -/
def startsWithCL : List Char → List Char → Bool
  | [], _ => true
  | _ :: _, [] => false
  | c :: cs, h :: hs => c = h && startsWithCL cs hs

/-- Whether `needle` occurs contiguously somewhere in `hay` (on character lists). -/
def containsCL (needle : List Char) : List Char → Bool
  | [] => needle.isEmpty
  | h :: hs => startsWithCL needle (h :: hs) || containsCL needle hs

/-- Python's substring test `needle in msg`. -/
def strContains (msg needle : String) : Bool :=
  containsCL needle.toList msg.toList

/-- Python `_load_index_from_s3`: `.error` models an exception propagating to the
caller; `.ok` a returned index.  The second `except Exception` clause does not
catch the `raise` from the first clause (Python picks one handler per raise),
but it does catch every non-`ClientError` failure and returns a fresh empty
index. -/
def load_index_from_s3 (year : Nat) (archiveType : String) (now : String) :
    S3GetIndexResult → Except String IndexFileV2
  | .found data => .ok { data with year := year, archive_type := archiveType }
  | .clientError msg =>
    if strContains msg "NoSuchKey" ∨ strContains msg "404" then
      .ok (emptyIndex year archiveType now)
    else
      .error msg
  | .otherError => .ok (emptyIndex year archiveType now)

/-! ## `S3ArchiveManager` per-key session model (archive_manager.py lines 174-736)

`Env` holds the per-session, per-key environment: the constructor arguments
that matter (`max_archive_size`, `immediate_upload`, the category giving the
canonical container name) and the remote store's contents for this key at
session start. -/

structure Env where
  /-- What `_load_index_from_s3` returns for this key (lazily, on first use). -/
  s3Index : IndexFileV2
  /-- Whether `head_object` on the canonical container `<category>.zip`
  succeeds in `_download_main_archive_if_exists`. -/
  remoteMainExists : Bool
  /-- Entries of the downloaded canonical container when it exists. -/
  remoteMainEntries : List (String × Nat)
  maxArchiveSize : Nat
  immediateUpload : Bool
  archiveType : String
deriving Repr

/-- The `part_info` dict built in `_finalize_current_part` (lines 431-438);
`local_path` is dropped (the model assumes the local file exists until the
upload that deletes it, as the code does on its happy path). -/
structure PartInfo where
  name : String
  files : List String
  file_count : Nat
  size : Nat
  size_human : String
deriving Repr, DecidableEq

/-- Projection of `S3ArchiveManager`'s keyed containers onto one key.
`zipEntries` models the open ZIP container's contents; `uploadedParts` is the
action trace of `s3.upload_file` calls made for archive parts of this key. -/
structure KeyState where
  /-- Python `self.indexes.get(key)`. -/
  index : Option IndexFileV2
  /-- Python `key in self.archives`. -/
  isOpen : Bool
  /-- Python `self.archive_paths[key].name` when open. -/
  archiveName : String
  /-- Entries written to the open container (filename, content length). -/
  zipEntries : List (String × Nat)
  /-- Python `self.current_part_files[key]`. -/
  currentPartFiles : List String
  /-- Python `self.current_part_size[key]`. -/
  currentPartSize : Nat
  /-- Python `self.pending_parts[key]`. -/
  pendingParts : List PartInfo
  /-- Python `self.parts_created_count[key]`. -/
  partsCreatedCount : Nat
  /-- Python `key in self.modified_archives`. -/
  modified : Bool
  /-- Python `key in self.uploaded_archives`. -/
  uploaded : Bool
  /-- Python `self.new_files_added[year][archive_type]`. -/
  newFilesAdded : List String
  /-- Trace of archive parts uploaded to S3 for this key. -/
  uploadedParts : List PartInfo
deriving Repr, DecidableEq

/-- State of a key never touched in this session (the defaultdict defaults). -/
def KeyState.init : KeyState :=
  { index := none, isOpen := false, archiveName := "", zipEntries := [],
    currentPartFiles := [], currentPartSize := 0, pendingParts := [],
    partsCreatedCount := 0, modified := false, uploaded := false,
    newFilesAdded := [], uploadedParts := [] }

/-- Python `local_path.stat().st_size` of the open container. -/
def diskSize (st : KeyState) : Nat := (st.zipEntries.map Prod.snd).sum

/-- Lazy `if key not in self.indexes: self.indexes[key] = self._load_index_from_s3(...)`. -/
def ensureIndex (env : Env) (st : KeyState) : KeyState :=
  match st.index with
  | some _ => st
  | none => { st with index := some env.s3Index }

/-- The index the code reads after ensuring it is loaded. -/
def loadedIndex (env : Env) (st : KeyState) : IndexFileV2 :=
  ((ensureIndex env st).index).getD env.s3Index

/-- Python `_create_new_part` (lines 375-413); `ts` stands for the
`strftime("%Y%m%dT%H%M%S")` timestamp taken inside the function. -/
def createNewPart (env : Env) (ts : String) (st : KeyState) : KeyState :=
  let idx := st.index.getD IndexFileV2.empty
  let totalParts := idx.parts.length + st.partsCreatedCount
  let archiveName :=
    if totalParts = 0 then env.archiveType ++ ".zip"
    else "part-" ++ ts ++ ".zip"
  { st with isOpen := true, archiveName := archiveName, zipEntries := [],
            currentPartFiles := [], currentPartSize := 0,
            partsCreatedCount := st.partsCreatedCount + 1 }

/-- Python `_upload_single_part` (lines 454-510): uploads the container, merges the
part into the index via `add_part`, uploads the index, deletes the local file.
(`year_upload_metadata` bookkeeping is omitted; no claim touches it.) -/
def uploadSinglePart (env : Env) (now : String) (pi : PartInfo) (st : KeyState) :
    KeyState :=
  let st := ensureIndex env st
  let idx := (st.index).getD env.s3Index
  let newPart : IndexPart :=
    { name := pi.name, files := pi.files, file_count := pi.file_count,
      size := pi.size, size_human := pi.size_human, created_at := now }
  { st with index := some (idx.add_part newPart now),
            uploadedParts := st.uploadedParts ++ [pi] }

/-- The `part_info` record built by `_finalize_current_part` (lines 430-438)
from the open container. -/
def finalPartInfo (st : KeyState) : PartInfo :=
  { name := st.archiveName, files := st.currentPartFiles,
    file_count := st.currentPartFiles.length, size := diskSize st,
    size_human := formatSize (diskSize st) }

/-- Python `_finalize_current_part` (lines 415-452). -/
def finalizeCurrentPart (env : Env) (now : String) (st : KeyState) : KeyState :=
  if st.isOpen then
    let pi := finalPartInfo st
    let st :=
      if env.immediateUpload then uploadSinglePart env now pi st
      else { st with pendingParts := st.pendingParts ++ [pi] }
    { st with isOpen := false, archiveName := "", zipEntries := [],
              currentPartFiles := [], currentPartSize := 0 }
  else st

/-- Python `get_archive` (lines 331-373), returning the updated state; the archive
the caller writes to is the (now surely open) container of the result. -/
def get_archive (env : Env) (now ts : String) (st : KeyState) : KeyState :=
  if st.isOpen then
    if env.maxArchiveSize ≤ diskSize st then
      createNewPart env ts (finalizeCurrentPart env now st)
    else st
  else
    let st := ensureIndex env st
    if env.remoteMainExists then
      { st with isOpen := true, archiveName := env.archiveType ++ ".zip",
                zipEntries := env.remoteMainEntries,
                currentPartSize := (env.remoteMainEntries.map Prod.snd).sum }
    else createNewPart env ts st

/-- Python `add_to_archive` (lines 512-552); `contentLen` is `len(content)`. -/
def add_to_archive (env : Env) (now ts : String) (filename : String)
    (contentLen : Nat) (st : KeyState) : KeyState :=
  let st := ensureIndex env st
  let idx := (st.index).getD env.s3Index
  if filename ∈ idx.get_all_files ∨ filename ∈ st.currentPartFiles then st
  else
    let st := get_archive env now ts st
    { st with zipEntries := st.zipEntries ++ [(filename, contentLen)],
              currentPartFiles := st.currentPartFiles ++ [filename],
              currentPartSize := st.currentPartSize + contentLen,
              modified := true,
              newFilesAdded :=
                if filename ∈ st.newFilesAdded then st.newFilesAdded
                else st.newFilesAdded ++ [filename] }

/-- Python `file_exists` (lines 554-568). -/
def file_exists (env : Env) (st : KeyState) (filename : String) : Bool :=
  filename ∈ (loadedIndex env st).get_all_files ++ st.currentPartFiles

/-- Python `_upload_parts_for_key` (lines 597-655): uploads every pending part,
merging each into the index; returns the uploaded count.  When there is
nothing pending it returns 0 without touching the index further. -/
def uploadPartsForKey (env : Env) (now : String) (st : KeyState) :
    KeyState × Nat :=
  let st := ensureIndex env st
  if st.pendingParts = [] then (st, 0)
  else
    let idx := (st.index).getD env.s3Index
    let idxFinal := st.pendingParts.foldl
      (fun acc pi => acc.add_part
        { name := pi.name, files := pi.files, file_count := pi.file_count,
          size := pi.size, size_human := pi.size_human, created_at := now } now)
      idx
    ({ st with index := some idxFinal,
               uploadedParts := st.uploadedParts ++ st.pendingParts,
               pendingParts := [] },
     st.pendingParts.length)

/-- The body of `upload_year_archives`'s loop for one key (lines 570-595). -/
def uploadKeyStep (env : Env) (now : String) (st : KeyState) : KeyState × Nat :=
  if st.uploaded then (st, 0)
  else if ¬ st.modified then (st, 0)
  else
    let st := if st.isOpen then finalizeCurrentPart env now st else st
    let r := uploadPartsForKey env now st
    ({ r.1 with uploaded := true }, r.2)

/-- Python `__exit__` (lines 232-246) restricted to one key: in immediate mode,
finalize any open archive (which uploads it); in batch mode, run
`upload_archives` (lines 703-728): finalize the open part if modified, then
upload pending parts of modified keys. -/
def sessionCloseStep (env : Env) (now : String) (st : KeyState) : KeyState :=
  if env.immediateUpload then
    if st.isOpen then finalizeCurrentPart env now st else st
  else
    let st :=
      if st.isOpen ∧ st.modified then finalizeCurrentPart env now st else st
    if st.modified then (uploadPartsForKey env now st).1 else st

/-- Total occurrences of `filename` across the loaded manifest's parts, the
pending parts and the current open part's file list. -/
def occurrences (env : Env) (st : KeyState) (filename : String) : Nat :=
  ((loadedIndex env st).parts.map IndexPart.files).flatten.count filename
    + (st.pendingParts.map PartInfo.files).flatten.count filename
    + st.currentPartFiles.count filename

/-! ## Dates

`datetime` values with day precision.  Comparison of valid dates is the
lexicographic order on (year, month, day), embedded through `key`. -/

structure Date where
  year : Nat
  month : Nat
  day : Nat
deriving Repr, DecidableEq

def Date.key (d : Date) : Nat := d.year * 10000 + d.month * 100 + d.day

/-- A calendar-valid date (what `datetime` objects always are). -/
def Date.Valid (d : Date) : Prop :=
  1 ≤ d.month ∧ d.month ≤ 12 ∧ 1 ≤ d.day ∧ d.day ≤ 31

instance (d : Date) : Decidable d.Valid := by
  unfold Date.Valid; infer_instance

def isLeap (y : Nat) : Bool :=
  (y % 4 = 0 ∧ y % 100 ≠ 0) ∨ y % 400 = 0

def daysInMonth (y m : Nat) : Nat :=
  if m = 2 then (if isLeap y then 29 else 28)
  else if m = 4 ∨ m = 6 ∨ m = 9 ∨ m = 11 then 30
  else 31

/-- Python `d + timedelta(days=1)`. -/
def nextDay (d : Date) : Date :=
  if d.day < daysInMonth d.year d.month then ⟨d.year, d.month, d.day + 1⟩
  else if d.month < 12 then ⟨d.year, d.month + 1, 1⟩
  else ⟨d.year + 1, 1, 1⟩

/-- Python `d - timedelta(days=1)`. -/
def prevDay (d : Date) : Date :=
  if 1 < d.day then ⟨d.year, d.month, d.day - 1⟩
  else if 1 < d.month then ⟨d.year, d.month - 1, daysInMonth d.year (d.month - 1)⟩
  else ⟨d.year - 1, 12, 31⟩

/-- Python `d + timedelta(days=n)`. -/
def addDays (d : Date) : Nat → Date
  | 0 => d
  | n + 1 => nextDay (addDays d n)

/-- Python's `min` on datetimes: returns the first argument on ties. -/
def minDate (a b : Date) : Date := if a.key ≤ b.key then a else b

def jan1 (y : Nat) : Date := ⟨y, 1, 1⟩

/-! ## `generate_five_year_chunks` (sync_s3_fill.py lines 74-97)

The `while current_chunk_start <= end_dt` loop advances the start year by 5
each iteration, so `endD.year + 1 - startD.year` bounds the iteration count
and is used as fuel; the structural properties proved below hold for every
fuel value. -/

def generateChunksGo (endD : Date) : Nat → Date → List (Date × Date)
  | 0, _ => []
  | fuel + 1, cur =>
    if cur.key ≤ endD.key then
      (cur, minDate (prevDay (jan1 (cur.year + 5))) endD)
        :: generateChunksGo endD fuel (jan1 (cur.year + 5))
    else []

def generate_five_year_chunks (startD endD : Date) : List (Date × Date) :=
  generateChunksGo endD (endD.year + 1 - startD.year) startD

/-! ## `get_date_ranges_to_process` / `generate_tasks`
(download.py lines 136-169 and 218-239)

With explicit `start_date` and `end_date` the generator caps the end at
`today`, then yields `(current, min(current + (day_step-1) days, end))` and
advances to the day after the range end.  Each iteration advances at least one
day, so `(endD.year + 1 - startD.year) * 366 + 31` bounds the iteration count
and is used as fuel. -/

structure SCDateTask where
  from_date : Date
  to_date : Date
deriving Repr, DecidableEq

def dateRangesGo (endD : Date) (dayStep : Nat) : Nat → Date → List (Date × Date)
  | 0, _ => []
  | fuel + 1, cur =>
    if cur.key ≤ endD.key then
      let rangeEnd := minDate (addDays cur (dayStep - 1)) endD
      (cur, rangeEnd) :: dateRangesGo endD dayStep fuel (nextDay rangeEnd)
    else []

def get_date_ranges_to_process (startD endD today : Date) (dayStep : Nat) :
    List (Date × Date) :=
  let endD := if today.key < endD.key then today else endD
  dateRangesGo endD dayStep ((endD.year + 1 - startD.year) * 366 + 31) startD

def generate_tasks (startD endD today : Date) (dayStep : Nat) :
    List SCDateTask :=
  (get_date_ranges_to_process startD endD today dayStep).map
    (fun r => { from_date := r.1, to_date := r.2 })

/-! ## Checkpoint file (sync_s3_fill.py lines 22-71) -/

/-- The progress document written by `save_fill_progress` (`last_updated` is
dropped: it is a wall-clock timestamp no claim touches). -/
structure FillProgress where
  start_date : Date
  end_date : Date
  completed_chunks : List (Date × Date)
  last_chunk_end : Option Date
  completed_years : List Nat
  current_chunk : Option (Date × Date)
deriving Repr, DecidableEq

/-- The checkpoint file: `none` models an absent/deleted file. -/
abbrev CheckpointFile := Option FillProgress

/-- Python `completed_chunks[-1][1] if completed_chunks else None`. -/
def lastChunkEnd (completed : List (Date × Date)) : Option Date :=
  (completed.getLast?).map Prod.snd

/-! ## Resume filtering (sync_s3_fill.py lines 204-247) -/

/-- Lines 205-216: the completed-years set applies only when the checkpoint's
`current_chunk` equals the chunk about to be processed. -/
def completedYearsForChunk (existing : Option FillProgress)
    (chunk : Date × Date) : List Nat :=
  match existing with
  | some p => if p.current_chunk = some chunk then p.completed_years else []
  | none => []

/-- Lines 236-241: drop tasks whose `from_date` year is already completed. -/
def filterTasks (completedYears : List Nat) (allTasks : List SCDateTask) :
    List SCDateTask :=
  allTasks.filter (fun t => t.from_date.year ∉ completedYears)

/-- The tasks handed to `executor.submit` for one chunk (lines 233-273):
daily tasks (`day_step=1`) over the chunk, minus completed years. -/
def submittedTasksForChunk (existing : Option FillProgress)
    (chunk : Date × Date) (today : Date) : List SCDateTask :=
  filterTasks (completedYearsForChunk existing chunk)
    (generate_tasks chunk.1 chunk.2 today 1)

/-! ## The in-chunk completion loop (sync_s3_fill.py lines 275-356)

One `TaskEvent` models one iteration of `for future in as_completed(...)`:
whether the wall-clock budget is observed as elapsed at the top of the
iteration, the task's year, whether `future.result()` raised, and — when a
year boundary triggers `upload_year_archives` — whether that upload raised. -/

structure TaskEvent where
  timeoutNow : Bool
  taskYear : Nat
  taskOk : Bool
  uploadOk : Bool
deriving Repr, DecidableEq

/-- Python `set.add` on the list model of `completed_years_in_current_chunk`. -/
def insertYear (ys : List Nat) (y : Nat) : List Nat :=
  if y ∈ ys then ys else ys ++ [y]

structure ChunkLoopState where
  /-- Python `years_in_chunk`. -/
  yearsInChunk : List Nat
  /-- Python `current_year`. -/
  currentYear : Option Nat
  /-- Trace of `upload_year_archives(year)` calls and their outcomes. -/
  uploadTrace : List (Nat × Bool)
  /-- Trace of `save_fill_progress` calls. -/
  savedCheckpoints : List FillProgress
deriving Repr, DecidableEq

inductive ChunkLoopResult where
  /-- Returned from inside the loop at a timeout: the checkpoint just saved,
  the loop state at that moment, and the cancelled (unconsumed) events. -/
  | suspended (saved : FillProgress) (st : ChunkLoopState)
      (cancelled : List TaskEvent)
  /-- The `as_completed` loop exhausted every future. -/
  | finished (st : ChunkLoopState)
deriving Repr, DecidableEq

def ChunkLoopState.start (initYears : List Nat) : ChunkLoopState :=
  { yearsInChunk := initYears, currentYear := none, uploadTrace := [],
    savedCheckpoints := [] }

/-- The progress document saved while a chunk is in flight (lines 297-304 and
327-336): completed chunks unchanged, current years, the chunk itself. -/
def midChunkProgress (os oe : Date) (completed : List (Date × Date))
    (chunk : Date × Date) (years : List Nat) : FillProgress :=
  { start_date := os, end_date := oe, completed_chunks := completed,
    last_chunk_end := lastChunkEnd completed, completed_years := years,
    current_chunk := some chunk }

def runChunkLoop (os oe : Date) (completed : List (Date × Date))
    (chunk : Date × Date) : ChunkLoopState → List TaskEvent → ChunkLoopResult
  | st, [] => .finished st
  | st, ev :: rest =>
    if ev.timeoutNow then
      let saved := midChunkProgress os oe completed chunk st.yearsInChunk
      .suspended saved
        { st with savedCheckpoints := st.savedCheckpoints ++ [saved] } rest
    else if ev.taskOk then
      match st.currentYear with
      | some cy =>
        if ev.taskYear ≠ cy then
          if ev.uploadOk then
            let ys := insertYear st.yearsInChunk cy
            let saved := midChunkProgress os oe completed chunk ys
            runChunkLoop os oe completed chunk
              { st with yearsInChunk := ys, currentYear := some ev.taskYear,
                        uploadTrace := st.uploadTrace ++ [(cy, true)],
                        savedCheckpoints := st.savedCheckpoints ++ [saved] }
              rest
          else
            runChunkLoop os oe completed chunk
              { st with currentYear := some ev.taskYear,
                        uploadTrace := st.uploadTrace ++ [(cy, false)] }
              rest
        else
          runChunkLoop os oe completed chunk
            { st with currentYear := some ev.taskYear } rest
      | none =>
        runChunkLoop os oe completed chunk
          { st with currentYear := some ev.taskYear } rest
    else
      runChunkLoop os oe completed chunk st rest

/-- Lines 383-397 and 486-490 after the loop finished naturally: the final
year's upload only updates `years_in_chunk` (used for parquet regeneration,
not modelled); then the chunk is appended to `completed_chunks` and saved
with empty years and no current chunk.  At a suspension, the function
`return`s with the checkpoint the loop just saved.
Result: (completed chunks, checkpoint file, suspended?). -/
def processOneChunk (os oe : Date) (completed : List (Date × Date))
    (chunk : Date × Date) (initYears : List Nat) (evs : List TaskEvent) :
    List (Date × Date) × CheckpointFile × Bool :=
  match runChunkLoop os oe completed chunk (ChunkLoopState.start initYears) evs with
  | .suspended saved _ _ => (completed, some saved, true)
  | .finished _ =>
    let completed := completed ++ [chunk]
    (completed,
     some { start_date := os, end_date := oe, completed_chunks := completed,
            last_chunk_end := some chunk.2, completed_years := [],
            current_chunk := none },
     false)

/-! ## The outer chunk loop with no timeout (sync_s3_fill.py lines 141-517)

With `timeout_hours=None` and every chunk's task loop finishing, each
remaining chunk is appended to `completed_chunks` and saved; when the loop
over chunks finishes naturally, `clear_fill_progress` deletes the file. -/

def processChunksNoTimeout (os oe : Date) :
    List (Date × Date) → List (Date × Date) →
    List (Date × Date) × CheckpointFile
  | completed, [] => (completed, none)
  | completed, c :: rest =>
    let completed := completed ++ [c]
    processChunksNoTimeout os oe completed rest

/-- Python `sync_s3_fill_gaps` with no timeout and all chunks completing: determine
the overall range (from the checkpoint when present), compute chunks, filter
out completed ones, run the rest, and clear the progress file at the end. -/
def runFillNoTimeout (argStart argEnd : Date)
    (existing : Option FillProgress) :
    List (Date × Date) × CheckpointFile :=
  let os := match existing with | some p => p.start_date | none => argStart
  let oe := match existing with | some p => p.end_date | none => argEnd
  let completed := match existing with
    | some p => p.completed_chunks
    | none => []
  let allChunks := generate_five_year_chunks os oe
  let remaining := allChunks.filter (fun c => c ∉ completed)
  if remaining = [] then (completed, none)
  else processChunksNoTimeout os oe completed remaining

/-! ## Theorems -/

/-- Fold invariant for `add_part`: aggregates are the sums over appended
parts, and the human-readable total stays the formatting of the total. -/
theorem add_part_foldl (ps : List (IndexPart × String)) :
    ∀ idx : IndexFileV2, idx.total_size_human = formatSize idx.total_size →
    (ps.foldl (fun a p => a.add_part p.1 p.2) idx).file_count
        = idx.file_count + (ps.map (fun p => p.1.file_count)).sum
    ∧ (ps.foldl (fun a p => a.add_part p.1 p.2) idx).total_size
        = idx.total_size + (ps.map (fun p => p.1.size)).sum
    ∧ (ps.foldl (fun a p => a.add_part p.1 p.2) idx).total_size_human
        = formatSize ((ps.foldl (fun a p => a.add_part p.1 p.2) idx).total_size) := by
  induction ps with
  | nil => intro idx h; simpa using h
  | cons p ps ih =>
    intro idx h
    have hstep : (idx.add_part p.1 p.2).total_size_human
        = formatSize (idx.add_part p.1 p.2).total_size := rfl
    obtain ⟨h1, h2, h3⟩ := ih (idx.add_part p.1 p.2) hstep
    refine ⟨?_, ?_, h3⟩
    · simp only [List.foldl_cons, List.map_cons, List.sum_cons] at h1 ⊢
      rw [h1]; simp [IndexFileV2.add_part]; ring
    · simp only [List.foldl_cons, List.map_cons, List.sum_cons] at h2 ⊢
      rw [h2]; simp [IndexFileV2.add_part]; ring

/-- C5: starting from a freshly created empty manifest, after any finite
sequence of `add_part` calls, `file_count` is the sum of `file_count` over the
parts, `total_size` is the sum of `size` over the parts, and
`total_size_human` is the human formatting of that total. -/
theorem c5_manifest_aggregates (year : Nat) (cat now : String)
    (ps : List (IndexPart × String)) :
    (ps.foldl (fun a p => a.add_part p.1 p.2) (emptyIndex year cat now)).file_count
        = (ps.map (fun p => p.1.file_count)).sum
    ∧ (ps.foldl (fun a p => a.add_part p.1 p.2) (emptyIndex year cat now)).total_size
        = (ps.map (fun p => p.1.size)).sum
    ∧ (ps.foldl (fun a p => a.add_part p.1 p.2) (emptyIndex year cat now)).total_size_human
        = formatSize
          ((ps.foldl (fun a p => a.add_part p.1 p.2) (emptyIndex year cat now)).total_size) := by
  obtain ⟨h1, h2, h3⟩ := add_part_foldl ps (emptyIndex year cat now) (by rfl)
  exact ⟨by simpa [emptyIndex] using h1, by simpa [emptyIndex] using h2, h3⟩

/-- A concrete canonical part used by witnesses. -/
def samplePartA : IndexPart :=
  { name := "english.zip", files := ["a", "b"], file_count := 2, size := 70,
    size_human := "70 B", created_at := "T1" }

/-- A concrete rotated part used by witnesses. -/
def samplePartB : IndexPart :=
  { name := "part-X.zip", files := ["c"], file_count := 1, size := 50,
    size_human := "50 B", created_at := "T2" }

/-- C5 witness: the aggregate invariant evaluated at two concrete parts. -/
theorem c5_manifest_aggregates_witness :
    (([(samplePartA, "T1"), (samplePartB, "T2")] :
        List (IndexPart × String)).foldl (fun a p => a.add_part p.1 p.2)
        (emptyIndex 2000 "english" "T0")).file_count = 3 :=
  ((c5_manifest_aggregates 2000 "english" "T0" _).1).trans (by decide)

/-- C4 counterexample: a store failure that is not a `ClientError` (for
example a network error while reading the body, or malformed JSON) does NOT
propagate: the catch-all `except Exception` clause returns a fresh empty
manifest instead. -/
theorem c4_other_error_swallowed_counterexample :
    load_index_from_s3 2005 "english" "NOW" .otherError
      = .ok (emptyIndex 2005 "english" "NOW") := rfl

/-- C4 amended: a `ClientError` whose message mentions `NoSuchKey` or `404`
("not found") yields a fresh empty manifest stamped with the current time;
every other `ClientError` propagates; any non-`ClientError` failure is
swallowed by the catch-all handler and also yields a fresh empty manifest. -/
theorem c4_load_index_amended (year : Nat) (cat now msg : String) :
    ((strContains msg "NoSuchKey" = true ∨ strContains msg "404" = true) →
      load_index_from_s3 year cat now (.clientError msg)
        = .ok (emptyIndex year cat now))
    ∧ (¬ (strContains msg "NoSuchKey" = true ∨ strContains msg "404" = true) →
      load_index_from_s3 year cat now (.clientError msg) = .error msg)
    ∧ load_index_from_s3 year cat now .otherError
        = .ok (emptyIndex year cat now) := by
  refine ⟨fun h => ?_, fun h => ?_, rfl⟩
  · simp only [load_index_from_s3, if_pos h]
  · simp only [load_index_from_s3, if_neg h]

/-- C4 amended witness: a `404`-style error yields a fresh manifest, a
different `ClientError` (`AccessDenied`) propagates. -/
theorem c4_load_index_amended_witness :
    load_index_from_s3 2005 "english" "NOW" (.clientError "NoSuchKey: absent")
      = .ok (emptyIndex 2005 "english" "NOW")
    ∧ load_index_from_s3 2005 "english" "NOW" (.clientError "AccessDenied")
      = .error "AccessDenied" :=
  ⟨(c4_load_index_amended 2005 "english" "NOW" "NoSuchKey: absent").1
      (Or.inl (by decide)),
   (c4_load_index_amended 2005 "english" "NOW" "AccessDenied").2.1 (by decide)⟩

/-- C6: for the campaign [1950-01-01, 1955-01-01) — i.e. inclusive end
1954-12-31 in the code's convention — the decomposition yields exactly the one
chunk covering the whole range; a run in which that chunk completes ends with
`completed_chunks` being exactly that chunk and the checkpoint file deleted. -/
theorem c6_single_chunk_campaign :
    generate_five_year_chunks ⟨1950, 1, 1⟩ ⟨1954, 12, 31⟩
      = [(⟨1950, 1, 1⟩, ⟨1954, 12, 31⟩)]
    ∧ runFillNoTimeout ⟨1950, 1, 1⟩ ⟨1954, 12, 31⟩ none
      = ([(⟨1950, 1, 1⟩, ⟨1954, 12, 31⟩)], none)
    ∧ processOneChunk ⟨1950, 1, 1⟩ ⟨1954, 12, 31⟩ []
        (⟨1950, 1, 1⟩, ⟨1954, 12, 31⟩) [] []
      = ([(⟨1950, 1, 1⟩, ⟨1954, 12, 31⟩)],
         some { start_date := ⟨1950, 1, 1⟩, end_date := ⟨1954, 12, 31⟩,
                completed_chunks := [(⟨1950, 1, 1⟩, ⟨1954, 12, 31⟩)],
                last_chunk_end := some ⟨1954, 12, 31⟩, completed_years := [],
                current_chunk := none }, false) := by
  refine ⟨by decide, by decide, by decide⟩

/-- C8: `_create_new_part` gives the very first part for a key — no parts in
the loaded manifest and none created this session — the canonical name
`<category>.zip`, and every later-created part the timestamp-derived name
`part-<ts>.zip`. -/
theorem c8_part_naming (env : Env) (ts : String) (st : KeyState) :
    ((st.index.getD IndexFileV2.empty).parts.length + st.partsCreatedCount = 0 →
      (createNewPart env ts st).archiveName = env.archiveType ++ ".zip")
    ∧ (0 < (st.index.getD IndexFileV2.empty).parts.length + st.partsCreatedCount →
      (createNewPart env ts st).archiveName = "part-" ++ ts ++ ".zip") := by
  constructor
  · intro h
    simp only [createNewPart, if_pos h]
  · intro h
    simp only [createNewPart, if_neg (Nat.pos_iff_ne_zero.mp h)]

/-! ## Concrete store sessions for C1 and C2

A fresh key `(2000, "english")` with nothing remote, `max_archive_size = 100`,
in batch mode (`immediate_upload=False`) and immediate mode. -/

def envBatch : Env :=
  { s3Index := emptyIndex 2000 "english" "T0", remoteMainExists := false,
    remoteMainEntries := [], maxArchiveSize := 100, immediateUpload := false,
    archiveType := "english" }

def envImmediate : Env := { envBatch with immediateUpload := true }

/-- C8 witness: from a fresh key the first created part is `english.zip`; the
part created right after it is `part-TS2.zip`. -/
theorem c8_part_naming_witness :
    (KeyState.init.index.getD IndexFileV2.empty).parts.length
        + KeyState.init.partsCreatedCount = 0
    ∧ (createNewPart envBatch "TS1" KeyState.init).archiveName = "english.zip"
    ∧ 0 < ((createNewPart envBatch "TS1" KeyState.init).index.getD
          IndexFileV2.empty).parts.length
        + (createNewPart envBatch "TS1" KeyState.init).partsCreatedCount
    ∧ (createNewPart envBatch "TS2"
        (createNewPart envBatch "TS1" KeyState.init)).archiveName
      = "part-TS2.zip" :=
  ⟨by decide,
   (c8_part_naming envBatch "TS1" KeyState.init).1 (by decide),
   by decide,
   (c8_part_naming envBatch "TS2" (createNewPart envBatch "TS1" KeyState.init)).2
     (by decide)⟩

/-- Two 60-byte writes for the same key (the spec's example scenario). -/
def twoWritesState : KeyState :=
  add_to_archive envBatch "T2" "TS2" "b.pdf" 60
    (add_to_archive envBatch "T1" "TS1" "a.pdf" 60 KeyState.init)

/-- The manifest after `upload_year_archives` flushes the two 60-byte writes. -/
def twoWritesManifest : IndexFileV2 :=
  ((uploadKeyStep envBatch "T3" twoWritesState).1.index).getD IndexFileV2.empty

/-- A third 60-byte write (this one does trigger rotation: 120 ≥ 100). -/
def threeWritesState : KeyState :=
  add_to_archive envBatch "T3" "TS3" "c.pdf" 60 twoWritesState

/-- The manifest after `upload_year_archives` flushes all three writes. -/
def threeWritesManifest : IndexFileV2 :=
  ((uploadKeyStep envBatch "T4" threeWritesState).1.index).getD IndexFileV2.empty

/-- C2 counterexample: with `max_archive_size = 100`, two 60-byte writes do
NOT trigger rotation — the size check in `get_archive` compares the part's
size before the write (60 < 100) — so after `upload_year_archives` the
manifest has 1 part, not the claimed 2; the same input also refutes the
general clause (cumulative 120 > 100 yet a single part). -/
theorem c2_two_writes_counterexample :
    twoWritesManifest.parts.length = 1
    ∧ twoWritesManifest.parts.length ≠ 2 := by
  refine ⟨by decide, by decide⟩

/-- C2 amended: the rotation check runs before a write and compares the
current part's existing on-disk size with the limit.  With
`max_archive_size = 100`: the first 60-byte write creates the canonical part
`english.zip`; the second lands in the same part (60 < 100), which
`upload_year_archives` finalizes at size 120, giving a manifest with
`parts = 1`, `total_size = 120`, `file_count = 2`; a third 60-byte write does
trigger rotation (120 ≥ 100), finalizing `english.zip` at 120 and placing the
third file in a timestamp-named part, after which the manifest shows
`parts = 2`, sizes 120 and 60, `total_size = 180`, `file_count = 3`. -/
theorem c2_size_rotation_amended :
    (add_to_archive envBatch "T1" "TS1" "a.pdf" 60 KeyState.init).archiveName
      = "english.zip"
    ∧ diskSize (add_to_archive envBatch "T1" "TS1" "a.pdf" 60 KeyState.init) = 60
    ∧ twoWritesState.archiveName = "english.zip"
    ∧ diskSize twoWritesState = 120
    ∧ twoWritesManifest.parts.length = 1
    ∧ twoWritesManifest.total_size = 120
    ∧ twoWritesManifest.file_count = 2
    ∧ threeWritesState.archiveName = "part-TS3.zip"
    ∧ threeWritesState.pendingParts.map PartInfo.size = [120]
    ∧ threeWritesManifest.parts.map IndexPart.name = ["english.zip", "part-TS3.zip"]
    ∧ threeWritesManifest.parts.map IndexPart.size = [120, 60]
    ∧ threeWritesManifest.total_size = 180
    ∧ threeWritesManifest.file_count = 3 := by
  refine ⟨by decide, by decide, by decide, by decide, by decide, by decide,
    by decide, by decide, by decide, by decide, by decide, by decide, by decide⟩

/-- Batch-mode session hitting the duplicate-check gap: add `f.pdf`
(100 bytes, fills the part), add `g.pdf` (rotation finalizes the first part
into `pending_parts`), then add `f.pdf` again. -/
def dupAfterRotationState : KeyState :=
  add_to_archive envBatch "T2" "TS2" "g.pdf" 50
    (add_to_archive envBatch "T1" "TS1" "f.pdf" 100 KeyState.init)

def dupFinalState : KeyState :=
  add_to_archive envBatch "T3" "TS3" "f.pdf" 100 dupAfterRotationState

/-- The same three calls in immediate-upload mode. -/
def dupFinalStateImmediate : KeyState :=
  add_to_archive envImmediate "T3" "TS3" "f.pdf" 100
    (add_to_archive envImmediate "T2" "TS2" "g.pdf" 50
      (add_to_archive envImmediate "T1" "TS1" "f.pdf" 100 KeyState.init))

/-- C1 (bug evaluation): in batch mode, after a rotation moved the part
holding `f.pdf` into `pending_parts`, `file_exists` no longer sees `f.pdf`
(the duplicate check consults only the manifest and the current part's file
list), so a second `add_to_archive` with the same filename writes it again:
`f.pdf` ends up both in a pending part and in the current part — two
occurrences, not one.  In immediate-upload mode the finalized part is merged
into the manifest at rotation time and the second add is the claimed no-op. -/
theorem c1_duplicate_after_rotation_bug :
    file_exists envBatch dupAfterRotationState "f.pdf" = false
    ∧ dupAfterRotationState.pendingParts.map PartInfo.files = [["f.pdf"]]
    ∧ dupFinalState.currentPartFiles = ["g.pdf", "f.pdf"]
    ∧ occurrences envBatch dupFinalState "f.pdf" = 2
    ∧ occurrences envImmediate dupFinalStateImmediate "f.pdf" = 1 := by
  refine ⟨by decide, by decide, by decide, by decide, by decide⟩

/-- C3: when resuming a checkpoint whose `current_chunk` is exactly the chunk
2000-01-01..2004-12-31 and whose completed years contain 2001, no task whose
`from_date` falls in 2001 is submitted to the worker pool. -/
theorem c3_resume_skips_completed_years (p : FillProgress) (today : Date)
    (hcur : p.current_chunk = some (⟨2000, 1, 1⟩, ⟨2004, 12, 31⟩))
    (h2001 : 2001 ∈ p.completed_years) :
    (submittedTasksForChunk (some p) (⟨2000, 1, 1⟩, ⟨2004, 12, 31⟩) today).all
      (fun t => t.from_date.year != 2001) = true := by
  rw [List.all_eq_true]
  intro t ht
  simp only [submittedTasksForChunk, filterTasks, completedYearsForChunk, hcur,
    if_pos rfl, List.mem_filter, decide_eq_true_eq] at ht
  rw [bne_iff_ne]
  intro hy
  exact ht.2 (hy ▸ h2001)

/-- The checkpoint of C3's witness: year 2001 already completed within the
current chunk 2000-01-01..2004-12-31. -/
def resumeCheckpoint : FillProgress :=
  { start_date := ⟨2000, 1, 1⟩, end_date := ⟨2004, 12, 31⟩,
    completed_chunks := [], last_chunk_end := none,
    completed_years := [2001], current_chunk := some (⟨2000, 1, 1⟩, ⟨2004, 12, 31⟩) }

/-- C3 witness: the concrete resumed chunk submits no 2001 task. -/
theorem c3_resume_skips_completed_years_witness :
    2001 ∈ resumeCheckpoint.completed_years
    ∧ (submittedTasksForChunk (some resumeCheckpoint)
        (⟨2000, 1, 1⟩, ⟨2004, 12, 31⟩) ⟨2026, 10, 12⟩).all
        (fun t => t.from_date.year != 2001) = true :=
  ⟨by decide,
   c3_resume_skips_completed_years resumeCheckpoint ⟨2026, 10, 12⟩ rfl (by decide)⟩

/-- In immediate-upload mode, finalizing an open part uploads exactly that
part and closes the container. -/
theorem finalize_immediate_uploads (env : Env) (now : String) (st : KeyState)
    (hi : env.immediateUpload = true) (ho : st.isOpen = true) :
    (finalizeCurrentPart env now st).uploadedParts
      = st.uploadedParts ++ [finalPartInfo st]
    ∧ (finalizeCurrentPart env now st).isOpen = false := by
  cases hidx : st.index <;>
    simp [finalizeCurrentPart, ho, hi, uploadSinglePart, ensureIndex, hidx]

/-- In batch mode, finalizing an open part queues exactly that part. -/
theorem finalize_batch_queues (env : Env) (now : String) (st : KeyState)
    (hi : env.immediateUpload = false) (ho : st.isOpen = true) :
    (finalizeCurrentPart env now st).pendingParts
      = st.pendingParts ++ [finalPartInfo st]
    ∧ (finalizeCurrentPart env now st).uploadedParts = st.uploadedParts
    ∧ (finalizeCurrentPart env now st).modified = st.modified
    ∧ (finalizeCurrentPart env now st).isOpen = false := by
  simp [finalizeCurrentPart, ho, hi]

/-- C9: once `upload_year_archives` has recorded a key in
`uploaded_archives`, a later `upload_year_archives` call skips it entirely —
the state for the key is unchanged and nothing is finalized or uploaded,
even when new files and pending parts accumulated after the first upload;
that later content is flushed by session close (`__exit__`), which finalizes
(and, in immediate mode, uploads) the open part, and in batch mode uploads
every pending part, regardless of the uploaded-archives set. -/
theorem c9_uploaded_key_skipped (env : Env) (now : String) (st : KeyState)
    (h : st.uploaded = true) :
    uploadKeyStep env now st = (st, 0)
    ∧ (env.immediateUpload = true → st.isOpen = true →
        (sessionCloseStep env now st).uploadedParts
          = st.uploadedParts ++ [finalPartInfo st]
        ∧ (sessionCloseStep env now st).isOpen = false)
    ∧ (env.immediateUpload = false → st.isOpen = true → st.modified = true →
        (sessionCloseStep env now st).uploadedParts
          = st.uploadedParts ++ (st.pendingParts ++ [finalPartInfo st])
        ∧ (sessionCloseStep env now st).pendingParts = []) := by
  refine ⟨by simp [uploadKeyStep, h], fun hi ho => ?_, fun hi ho hm => ?_⟩
  · have hf := finalize_immediate_uploads env now st hi ho
    simp only [sessionCloseStep, hi, if_pos ho]
    exact ⟨hf.1, hf.2⟩
  · have hf := finalize_batch_queues env now st hi ho
    simp only [sessionCloseStep, hi, Bool.false_eq_true, if_false,
      ho, hm, and_self, if_true, hf.2.2.1]
    have hne : (finalizeCurrentPart env now st).pendingParts ≠ [] := by
      rw [hf.1]; simp
    cases hidx : (finalizeCurrentPart env now st).index <;>
      simp [uploadPartsForKey, ensureIndex, hidx, hne, hf.1, hf.2.1]

/-- A pending (finalized, not yet uploaded) part holding `f.pdf`. -/
def pendingCanonicalPart : PartInfo :=
  { name := "english.zip", files := ["f.pdf"], file_count := 1, size := 100,
    size_human := "100 B" }

/-- A key already uploaded this session, with content added afterwards: an
open part holding `h.pdf` and a pending part holding `f.pdf`. -/
def uploadedOpenState : KeyState :=
  { KeyState.init with
      uploaded := true, modified := true, isOpen := true,
      archiveName := "part-TS9.zip", zipEntries := [("h.pdf", 5)],
      currentPartFiles := ["h.pdf"], currentPartSize := 5,
      pendingParts := [pendingCanonicalPart] }

/-- C9 witness: the skip and the immediate-mode close flush, evaluated. -/
theorem c9_uploaded_key_skipped_witness :
    uploadKeyStep envImmediate "T9" uploadedOpenState = (uploadedOpenState, 0)
    ∧ (sessionCloseStep envImmediate "T9" uploadedOpenState).uploadedParts
        = uploadedOpenState.uploadedParts ++ [finalPartInfo uploadedOpenState]
    ∧ (sessionCloseStep envImmediate "T9" uploadedOpenState).isOpen = false :=
  ⟨(c9_uploaded_key_skipped envImmediate "T9" uploadedOpenState rfl).1,
   ((c9_uploaded_key_skipped envImmediate "T9" uploadedOpenState rfl).2.1 rfl rfl).1,
   ((c9_uploaded_key_skipped envImmediate "T9" uploadedOpenState rfl).2.1 rfl rfl).2⟩

/-- Membership after the set-add `years_in_chunk.add`. -/
theorem mem_insertYear (ys : List Nat) (c y : Nat) :
    y ∈ insertYear ys c ↔ (y ∈ ys ∨ y = c) := by
  unfold insertYear
  by_cases h : c ∈ ys
  · rw [if_pos h]
    constructor
    · exact fun hy => Or.inl hy
    · rintro (hy | rfl)
      · exact hy
      · exact h
  · rw [if_neg h]
    simp [List.mem_append]

/-- The loop invariant connecting `years_in_chunk` to the upload trace:
a year is recorded exactly when it was already recorded at chunk start or
its `upload_year_archives` call succeeded. -/
def YearsInv (initYears : List Nat) (st : ChunkLoopState) : Prop :=
  ∀ y, y ∈ st.yearsInChunk ↔ (y ∈ initYears ∨ (y, true) ∈ st.uploadTrace)

/-- What the in-chunk loop guarantees at a timeout suspension: the saved
checkpoint keeps `completed_chunks` and the overall range unchanged, points
`current_chunk` at the chunk in flight, and its completed years are the loop's
`years_in_chunk`, which satisfy the upload-trace invariant. -/
theorem runChunkLoop_suspended_spec (os oe : Date)
    (completed : List (Date × Date)) (chunk : Date × Date)
    (initYears : List Nat) :
    ∀ (evs : List TaskEvent) (st : ChunkLoopState) (saved : FillProgress)
      (stF : ChunkLoopState) (rest : List TaskEvent), YearsInv initYears st →
      runChunkLoop os oe completed chunk st evs = .suspended saved stF rest →
      saved.completed_chunks = completed ∧ saved.current_chunk = some chunk
      ∧ saved.start_date = os ∧ saved.end_date = oe
      ∧ saved.completed_years = stF.yearsInChunk ∧ YearsInv initYears stF := by
  intro evs
  induction evs with
  | nil =>
    intro st saved stF rest _ h
    simp [runChunkLoop] at h
  | cons ev rest' ih =>
    intro st saved stF rest hinv h
    simp only [runChunkLoop] at h
    by_cases ht : ev.timeoutNow = true
    · rw [if_pos ht] at h
      obtain ⟨hsaved, hstF, -⟩ := ChunkLoopResult.suspended.inj h
      subst hsaved; subst hstF
      exact ⟨rfl, rfl, rfl, rfl, rfl, hinv⟩
    · rw [if_neg ht] at h
      by_cases hok : ev.taskOk = true
      · rw [if_pos hok] at h
        cases hcy : st.currentYear with
        | none =>
          rw [hcy] at h
          dsimp only at h
          exact ih { st with currentYear := some ev.taskYear }
            saved stF rest hinv h
        | some cy =>
          rw [hcy] at h
          dsimp only at h
          by_cases hyr : ev.taskYear ≠ cy
          · rw [if_pos hyr] at h
            by_cases hup : ev.uploadOk = true
            · rw [if_pos hup] at h
              refine ih _ saved stF rest ?_ h
              intro y
              simp only [mem_insertYear, List.mem_append,
                List.mem_singleton, Prod.mk.injEq, and_true]
              rw [hinv y]
              tauto
            · rw [if_neg hup] at h
              refine ih _ saved stF rest ?_ h
              intro y
              simp only [List.mem_append, List.mem_singleton, Prod.mk.injEq]
              rw [hinv y]
              constructor
              · exact fun hy => hy.imp id Or.inl
              · rintro (hy | hy | ⟨-, h2⟩)
                · exact Or.inl hy
                · exact Or.inr hy
                · exact absurd h2 (by simp)
          · rw [if_neg hyr] at h
            exact ih { st with currentYear := some ev.taskYear }
              saved stF rest hinv h
      · rw [if_neg hok] at h
        exact ih _ saved stF rest hinv h

/-- C7: if the wall-clock budget elapses while a chunk's tasks are still
being consumed, the scheduler returns suspended with checkpoint saved: the
chunk is not appended to `completed_chunks`, the checkpoint's
`current_chunk` is the chunk in flight, and its completed years are exactly
the initially-resumed years plus the years whose `upload_year_archives`
call succeeded before the timeout.  Not-yet-started tasks are cancelled:
the events after the timeout are returned unconsumed and contribute
nothing. -/
theorem c7_timeout_suspends (os oe : Date) (completed : List (Date × Date))
    (chunk : Date × Date) (initYears : List Nat) (evs : List TaskEvent)
    (saved : FillProgress) (stF : ChunkLoopState) (rest : List TaskEvent)
    (h : runChunkLoop os oe completed chunk (ChunkLoopState.start initYears) evs
          = .suspended saved stF rest) :
    processOneChunk os oe completed chunk initYears evs
      = (completed, some saved, true)
    ∧ saved.completed_chunks = completed
    ∧ saved.current_chunk = some chunk
    ∧ saved.start_date = os ∧ saved.end_date = oe
    ∧ (∀ y, y ∈ saved.completed_years
        ↔ (y ∈ initYears ∨ (y, true) ∈ stF.uploadTrace)) := by
  have hinv : YearsInv initYears (ChunkLoopState.start initYears) := by
    intro y
    simp [ChunkLoopState.start]
  obtain ⟨h1, h2, h3, h4, h5, h6⟩ :=
    runChunkLoop_suspended_spec os oe completed chunk initYears evs _
      saved stF rest hinv h
  refine ⟨?_, h1, h2, h3, h4, fun y => h5 ▸ h6 y⟩
  unfold processOneChunk
  rw [h]

/-- Events of C7's witness: 2000's tasks finish, a 2001 task finishes and
crosses the year boundary (2000 uploads successfully), then the budget is
observed elapsed. -/
def budgetEvents : List TaskEvent :=
  [{ timeoutNow := false, taskYear := 2000, taskOk := true, uploadOk := true },
   { timeoutNow := false, taskYear := 2001, taskOk := true, uploadOk := true },
   { timeoutNow := true, taskYear := 2001, taskOk := true, uploadOk := true }]

/-- The checkpoint C7's witness run saves at the timeout. -/
def suspendedDoc : FillProgress :=
  { start_date := ⟨2000, 1, 1⟩, end_date := ⟨2004, 12, 31⟩,
    completed_chunks := [], last_chunk_end := none,
    completed_years := [2000],
    current_chunk := some (⟨2000, 1, 1⟩, ⟨2004, 12, 31⟩) }

/-- The loop state of C7's witness run at the timeout. -/
def suspendedLoopState : ChunkLoopState :=
  { yearsInChunk := [2000], currentYear := some 2001,
    uploadTrace := [(2000, true)],
    savedCheckpoints := [suspendedDoc, suspendedDoc] }

/-- C7 witness: the concrete suspended run, evaluated. -/
theorem c7_timeout_suspends_witness :
    processOneChunk ⟨2000, 1, 1⟩ ⟨2004, 12, 31⟩ []
        (⟨2000, 1, 1⟩, ⟨2004, 12, 31⟩) [] budgetEvents
      = ([], some suspendedDoc, true)
    ∧ suspendedDoc.completed_chunks = []
    ∧ suspendedDoc.current_chunk = some (⟨2000, 1, 1⟩, ⟨2004, 12, 31⟩)
    ∧ (2000 ∈ suspendedDoc.completed_years
        ↔ (2000 ∈ ([] : List Nat)
            ∨ ((2000 : Nat), true) ∈ suspendedLoopState.uploadTrace)) := by
  have h : runChunkLoop ⟨2000, 1, 1⟩ ⟨2004, 12, 31⟩ []
      (⟨2000, 1, 1⟩, ⟨2004, 12, 31⟩) (ChunkLoopState.start []) budgetEvents
      = .suspended suspendedDoc suspendedLoopState [] := by decide
  have hmain := c7_timeout_suspends ⟨2000, 1, 1⟩ ⟨2004, 12, 31⟩ []
    (⟨2000, 1, 1⟩, ⟨2004, 12, 31⟩) [] budgetEvents suspendedDoc
    suspendedLoopState [] h
  exact ⟨hmain.1, hmain.2.1, hmain.2.2.1, hmain.2.2.2.2.2 2000⟩

/-! ## Structure of the five-year chunk decomposition (C10) -/

/-- Python `datetime(y+1,1,1) - timedelta(days=1)` is December 31 of year `y`. -/
theorem prevDay_jan1 (y : Nat) : prevDay (jan1 (y + 1)) = ⟨y, 12, 31⟩ := by
  simp [prevDay, jan1]

/-- December 31 plus one day is January 1 of the next year. -/
theorem nextDay_dec31 (y : Nat) : nextDay ⟨y, 12, 31⟩ = jan1 (y + 1) := by
  norm_num [nextDay, jan1, daysInMonth]

/-- A nonempty chunk list starts at the loop's current start date. -/
theorem generateChunksGo_head (endD : Date) (fuel : Nat) (cur : Date)
    (c : Date × Date) (tl : List (Date × Date))
    (h : generateChunksGo endD fuel cur = c :: tl) : c.1 = cur := by
  cases fuel with
  | zero => simp [generateChunksGo] at h
  | succ f =>
    by_cases hle : cur.key ≤ endD.key
    · simp only [generateChunksGo, if_pos hle, List.cons.injEq] at h
      rw [← h.1]
    · simp [generateChunksGo, if_neg hle] at h

/-- The loop emits a chunk only while the current start is within range. -/
theorem generateChunksGo_ne_nil (endD : Date) (fuel : Nat) (cur : Date)
    (h : generateChunksGo endD fuel cur ≠ []) : cur.key ≤ endD.key := by
  cases fuel with
  | zero => simp [generateChunksGo] at h
  | succ f =>
    by_cases hle : cur.key ≤ endD.key
    · exact hle
    · simp [generateChunksGo, if_neg hle] at h

/-- The relation between consecutive chunks: the earlier one ends on a
December 31 and the later one starts on the next day, January 1 of the
following year. -/
def chunkStep (a b : Date × Date) : Prop :=
  a.2.month = 12 ∧ a.2.day = 31 ∧ b.1 = nextDay a.2 ∧ b.1 = jan1 (a.2.year + 1)

instance (a b : Date × Date) : Decidable (chunkStep a b) := by
  unfold chunkStep
  infer_instance

/-- When another chunk follows, the clipping `min` resolves to December 31. -/
theorem minDate_resolves_dec31 (endD : Date) (y : Nat)
    (hkey : (jan1 (y + 5)).key ≤ endD.key) :
    minDate (prevDay (jan1 (y + 5))) endD = ⟨y + 4, 12, 31⟩ := by
  have h5 : y + 5 = (y + 4) + 1 := rfl
  rw [h5, prevDay_jan1]
  unfold minDate
  have hk : (Date.key ⟨y + 4, 12, 31⟩) ≤ endD.key := by
    simp [jan1, Date.key] at hkey ⊢
    omega
  rw [if_pos hk]

/-- Every pair of consecutive generated chunks satisfies `chunkStep`. -/
theorem chain_chunkStep (endD : Date) :
    ∀ (fuel : Nat) (cur : Date),
      List.Chain' chunkStep (generateChunksGo endD fuel cur) := by
  intro fuel
  induction fuel with
  | zero =>
    intro cur
    simp [generateChunksGo]
  | succ f ih =>
    intro cur
    by_cases hle : cur.key ≤ endD.key
    · simp only [generateChunksGo, if_pos hle]
      rw [List.chain'_cons']
      refine ⟨?_, ih (jan1 (cur.year + 5))⟩
      intro b hb
      cases f with
      | zero => simp [generateChunksGo] at hb
      | succ f =>
        by_cases hkey : (jan1 (cur.year + 5)).key ≤ endD.key
        · simp only [generateChunksGo, if_pos hkey, List.head?_cons,
            Option.mem_def, Option.some.injEq] at hb
          have hmin := minDate_resolves_dec31 endD cur.year hkey
          have h45 : cur.year + 4 + 1 = cur.year + 5 := by omega
          subst hb
          refine ⟨?_, ?_, ?_, ?_⟩
          · simp [hmin]
          · simp [hmin]
          · simp [hmin, nextDay_dec31, h45]
          · simp [hmin, h45]
        · simp [generateChunksGo, if_neg hkey] at hb
    · simp [generateChunksGo, if_neg hle]

/-- Every generated chunk starts no earlier than the loop's current start
year. -/
theorem generateChunksGo_start_year (endD : Date) :
    ∀ (fuel : Nat) (cur : Date) (c : Date × Date),
      c ∈ generateChunksGo endD fuel cur → cur.year ≤ c.1.year := by
  intro fuel
  induction fuel with
  | zero =>
    intro cur c hc
    simp [generateChunksGo] at hc
  | succ f ih =>
    intro cur c hc
    by_cases hle : cur.key ≤ endD.key
    · simp only [generateChunksGo, if_pos hle, List.mem_cons] at hc
      rcases hc with rfl | hc
      · simp
      · have := ih (jan1 (cur.year + 5)) c hc
        simp only [jan1] at this
        omega
    · simp [generateChunksGo, if_neg hle] at hc

/-- Each generated chunk spans a non-decreasing year range. -/
theorem generateChunksGo_chunk_year_le (endD : Date) (he : endD.Valid) :
    ∀ (fuel : Nat) (cur : Date), cur.Valid →
      List.Forall (fun c : Date × Date => c.1.year ≤ c.2.year)
        (generateChunksGo endD fuel cur) := by
  intro fuel
  induction fuel with
  | zero =>
    intro cur _
    simp [generateChunksGo, List.Forall]
  | succ f ih =>
    intro cur hv
    by_cases hle : cur.key ≤ endD.key
    · simp only [generateChunksGo, if_pos hle, List.forall_cons]
      constructor
      · unfold minDate
        by_cases hk : (prevDay (jan1 (cur.year + 5))).key ≤ endD.key
        · rw [if_pos hk]
          have h5 : cur.year + 5 = (cur.year + 4) + 1 := rfl
          rw [h5, prevDay_jan1]
          exact Nat.le_add_right _ 4
        · rw [if_neg hk]
          obtain ⟨a1, a2, a3, a4⟩ := hv
          obtain ⟨b1, b2, b3, b4⟩ := he
          simp [Date.key] at hle
          omega
      · refine ih (jan1 (cur.year + 5)) ?_
        refine ⟨le_refl 1, by simp [jan1], le_refl 1, by simp [jan1]⟩
    · simp [generateChunksGo, if_neg hle, List.Forall]

/-- Year ranges of distinct generated chunks never overlap. -/
theorem generateChunksGo_pairwise (endD : Date) (he : endD.Valid) :
    ∀ (fuel : Nat) (cur : Date),
      List.Pairwise (fun a b : Date × Date => a.2.year < b.1.year)
        (generateChunksGo endD fuel cur) := by
  intro fuel
  induction fuel with
  | zero =>
    intro cur
    simp [generateChunksGo]
  | succ f ih =>
    intro cur
    by_cases hle : cur.key ≤ endD.key
    · simp only [generateChunksGo, if_pos hle]
      refine List.Pairwise.cons ?_ (ih (jan1 (cur.year + 5)))
      intro c hc
      have h5 : cur.year + 5 ≤ c.1.year := by
        have := generateChunksGo_start_year endD f (jan1 (cur.year + 5)) c hc
        simpa [jan1] using this
      have hy : (minDate (prevDay (jan1 (cur.year + 5))) endD).year
          ≤ cur.year + 4 := by
        have hd : cur.year + 5 = (cur.year + 4) + 1 := rfl
        rw [hd, prevDay_jan1]
        unfold minDate
        by_cases hk : (Date.key ⟨cur.year + 4, 12, 31⟩) ≤ endD.key
        · rw [if_pos hk]
        · rw [if_neg hk]
          obtain ⟨b1, b2, b3, b4⟩ := he
          simp [Date.key, not_le] at hk
          omega
      show (minDate (prevDay (jan1 (cur.year + 5))) endD).year < c.1.year
      omega
    · simp [generateChunksGo, if_neg hle]

/-- C10: for every valid `start_date ≤ end_date`, the chunk list is
contiguous and calendar-aligned: it starts at `start_date`; each chunk that
has a successor ends on December 31 and the successor starts on the next
day, January 1 of the following year (so every chunk after the first starts
on January 1); each chunk's years are an interval; and the year ranges of
distinct chunks are disjoint — no calendar year has days in two chunks. -/
theorem c10_chunks_calendar_aligned (startD endD : Date)
    (hs : startD.Valid) (he : endD.Valid) (hle : startD.key ≤ endD.key) :
    (generate_five_year_chunks startD endD).head?.map Prod.fst = some startD
    ∧ List.Chain' chunkStep (generate_five_year_chunks startD endD)
    ∧ List.Forall (fun c : Date × Date => c.1.year ≤ c.2.year)
        (generate_five_year_chunks startD endD)
    ∧ List.Pairwise (fun a b : Date × Date => a.2.year < b.1.year)
        (generate_five_year_chunks startD endD) := by
  refine ⟨?_, chain_chunkStep endD _ _,
    generateChunksGo_chunk_year_le endD he _ _ hs,
    generateChunksGo_pairwise endD he _ _⟩
  have hy : startD.year ≤ endD.year := by
    obtain ⟨a1, a2, a3, a4⟩ := hs
    obtain ⟨b1, b2, b3, b4⟩ := he
    simp only [Date.key] at hle
    omega
  unfold generate_five_year_chunks
  obtain ⟨n, hn⟩ : ∃ n, endD.year + 1 - startD.year = n + 1 :=
    ⟨endD.year - startD.year, by omega⟩
  rw [hn]
  simp [generateChunksGo, if_pos hle]

/-- C10 witness: the decomposition of 1950-01-01..1962-07-15, whose three
chunks end on 1954-12-31, 1959-12-31 and 1962-07-15. -/
theorem c10_chunks_calendar_aligned_witness :
    (⟨1950, 1, 1⟩ : Date).Valid ∧ (⟨1962, 7, 15⟩ : Date).Valid
    ∧ (Date.key ⟨1950, 1, 1⟩ ≤ Date.key ⟨1962, 7, 15⟩)
    ∧ (generate_five_year_chunks ⟨1950, 1, 1⟩ ⟨1962, 7, 15⟩).head?.map Prod.fst
        = some ⟨1950, 1, 1⟩
    ∧ List.Chain' chunkStep (generate_five_year_chunks ⟨1950, 1, 1⟩ ⟨1962, 7, 15⟩)
    ∧ List.Forall (fun c : Date × Date => c.1.year ≤ c.2.year)
        (generate_five_year_chunks ⟨1950, 1, 1⟩ ⟨1962, 7, 15⟩)
    ∧ List.Pairwise (fun a b : Date × Date => a.2.year < b.1.year)
        (generate_five_year_chunks ⟨1950, 1, 1⟩ ⟨1962, 7, 15⟩) := by
  have h := c10_chunks_calendar_aligned ⟨1950, 1, 1⟩ ⟨1962, 7, 15⟩
    (by decide) (by decide) (by decide)
  exact ⟨by decide, by decide, by decide, h.1, h.2.1, h.2.2.1, h.2.2.2⟩

end SCArchive
